import Mathlib

/-!
Shallow embedding of the staged RAG explanation pipeline of the code-tutor
backend (q3/backend/services/langgraph_agent.py together with the retrieval
wrapper q3/backend/services/rag_service.py).

Python strings are modelled as lists of code points (`List Char`), so slicing
`s[i:j]`, concatenation and separator-joining become `List.drop/take`, `++` and
`List.intercalate`.  The two external capabilities (the LLM client
`self.llm.ainvoke` and the vector store `self.vector_store.similarity_search`)
are modelled as pure functions returning `Except`, where `Except.error m`
stands for a raised exception whose `str(e)` is `m`.  The `float`
`execution_time` field is only ever interpolated into prompt text, so it is
carried as its formatted text.  The LangGraph `astream` loop of
`CodeTutorAgent.generate_explanation` yields one update event per node, in the
fixed linear order `analyze_code, retrieve_context, generate_explanation,
format_response`; every node returns the whole state, so `"current_step" in
node_state` holds at every event, and the `generate_explanation` event
additionally carries the `explanation` key.  The output stream is modelled as
a list of tagged chunks: one tag per `yield` site of the source (the progress
`yield` and the explanation-slice `yield`), with `renderChunk` giving the
exact text each `yield` emits.
-/

namespace CodeTutor

/-- Python strings, modelled as their sequence of code points. -/
abbrev PyStr := List Char

/-- models.schemas.ExecutionStatus: enum with values success / error / timeout. -/
inductive ExecutionStatus where
  | success
  | error
  | timeout
deriving DecidableEq, Repr

/-- Text a status renders as when interpolated into a prompt (the enum values
are strings in the source). -/
def ExecutionStatus.toStr : ExecutionStatus → PyStr
  | .success => "success".data
  | .error => "error".data
  | .timeout => "timeout".data

/-- models.schemas.ExecutionResult: immutable record of a prior code run.
`executionTime` is a Python float used only inside prompt text, so it is
modelled by the text it formats to. -/
structure ExecutionResult where
  status : ExecutionStatus
  stdout : PyStr
  stderr : PyStr
  executionTime : PyStr
  exitCode : Option Int
  errorMessage : Option PyStr
deriving DecidableEq, Repr

/-- langchain Document as consumed by the pipeline: `page_content` plus
string-keyed metadata. -/
structure Document where
  page_content : PyStr
  metadata : List (PyStr × PyStr)
deriving DecidableEq, Repr

/-- An LLM response object; the pipeline only reads `.content`. -/
structure LLMResponse where
  content : PyStr
deriving DecidableEq, Repr

/-- The formatted message list handed to `self.llm.ainvoke`.  Each constructor
records which prompt template of langgraph_agent.py was formatted and with
which arguments, so a capability sees exactly the data the source passes. -/
inductive PromptMsg where
  | analysis (language code status stdout stderr executionTime : PyStr)
  | explanationPrompt (language code status stdout stderr executionTime context : PyStr)
  | quickHelp (language code : PyStr)
deriving DecidableEq

/-- The two external capabilities.  `llm` is `self.llm.ainvoke`;
`similaritySearch` is `self.vector_store.similarity_search` with its query,
result cap `k`, and optional metadata filter.  `Except.error m` models a
raised exception with message `m`. -/
structure Caps where
  llm : PromptMsg → Except PyStr LLMResponse
  similaritySearch : PyStr → Nat → Option (List (PyStr × PyStr)) → Except PyStr (List Document)

/-- RAGService.search_similar_documents: runs the similarity search inside
try/except; on any exception it logs and returns the empty list. -/
def search_similar_documents (caps : Caps) (query : PyStr) (k : Nat)
    (filterMetadata : Option (List (PyStr × PyStr))) : List Document :=
  match caps.similaritySearch query k filterMetadata with
  | .ok results => results
  | .error _ => []

/-- Query construction of RAGService.get_relevant_context: parts are
`"{language} code"`, then (only when `error_message` is truthy, i.e. present
and non-empty) `"error: {error_message}"`, then the first 200 characters of
the code; joined with single spaces. -/
def ragQuery (code language : PyStr) (errorMessage : Option PyStr) : PyStr :=
  let queryParts := [language ++ " code".data]
  let queryParts :=
    match errorMessage with
    | some em => if em = [] then queryParts else queryParts ++ ["error: ".data ++ em]
    | none => queryParts
  let codeSnippet := if code.length > 200 then code.take 200 else code
  let queryParts := queryParts ++ [codeSnippet]
  List.intercalate " ".data queryParts

/-- RAGService.get_relevant_context: builds the query and searches (no
metadata filter).  Its own try/except wrapper is unreachable because the body
is total here, exactly as in the source where `search_similar_documents`
already swallows every exception. -/
def get_relevant_context (caps : Caps) (code language : PyStr)
    (errorMessage : Option PyStr) (k : Nat) : List Document :=
  search_similar_documents caps (ragQuery code language errorMessage) k none

/-- CodeTutorState: the typed state dict threaded through the LangGraph nodes. -/
structure CodeTutorState where
  messages : List LLMResponse
  code : PyStr
  language : PyStr
  execution_result : ExecutionResult
  relevant_docs : List Document
  explanation : PyStr
  current_step : PyStr
deriving DecidableEq

/-- Decimal rendering of a natural, as Python str() of an int. -/
def natStr (n : Nat) : PyStr := (Nat.repr n).data

/-- The formatted analysis prompt of `_analyze_code`. -/
def analysisPromptOf (s : CodeTutorState) : PromptMsg :=
  .analysis s.language s.code s.execution_result.status.toStr
    s.execution_result.stdout s.execution_result.stderr s.execution_result.executionTime

/-- CodeTutorAgent._analyze_code: one LLM call; on success appends the raw
response to `messages` and sets the step label; on exception only sets the
error step label. -/
def analyze_code (caps : Caps) (s : CodeTutorState) : CodeTutorState :=
  match caps.llm (analysisPromptOf s) with
  | .ok response =>
      { s with current_step := "Code analysis completed".data,
               messages := s.messages ++ [response] }
  | .error e =>
      { s with current_step := "Error in analysis: ".data ++ e }

/-- The `error_message` argument `_retrieve_context` passes:
`stderr if stderr else None`. -/
def stderrArg (er : ExecutionResult) : Option PyStr :=
  if er.stderr = [] then none else some er.stderr

/-- CodeTutorAgent._retrieve_context: fetches up to 3 relevant documents and
records the count in the step label.  Its except branch (label
`"Error retrieving context: ..."`) is unreachable through the retrieval
capability, because RAGService catches every capability exception internally
and returns an empty list. -/
def retrieve_context (caps : Caps) (s : CodeTutorState) : CodeTutorState :=
  let relevantDocs :=
    get_relevant_context caps s.code s.language (stderrArg s.execution_result) 3
  { s with relevant_docs := relevantDocs,
           current_step := "Retrieved ".data ++ natStr relevantDocs.length
             ++ " relevant documents".data }

/-- Context block of `_generate_explanation`: empty when there are no
documents, otherwise `"Reference {i+1}:\n{page_content}"` joined by blank
lines. -/
def contextText (docs : List Document) : PyStr :=
  if docs = [] then [] else
    List.intercalate "\n\n".data
      (docs.enum.map fun p =>
        "Reference ".data ++ natStr (p.1 + 1) ++ ":\n".data ++ p.2.page_content)

/-- The formatted explanation prompt of `_generate_explanation`. -/
def explanationPromptOf (s : CodeTutorState) : PromptMsg :=
  .explanationPrompt s.language s.code s.execution_result.status.toStr
    s.execution_result.stdout s.execution_result.stderr s.execution_result.executionTime
    (contextText s.relevant_docs)

/-- CodeTutorAgent._generate_explanation: one LLM call; on success stores the
response content as the explanation; on exception stores the error text in
the `explanation` field itself and an error step label. -/
def generate_explanation_node (caps : Caps) (s : CodeTutorState) : CodeTutorState :=
  match caps.llm (explanationPromptOf s) with
  | .ok response =>
      { s with explanation := response.content,
               current_step := "Explanation generated".data }
  | .error e =>
      { s with explanation := "Error generating explanation: ".data ++ e,
               current_step := "Error: ".data ++ e }

/-- CodeTutorAgent._format_response: sets the final step label only. -/
def format_response (s : CodeTutorState) : CodeTutorState :=
  { s with current_step := "Response formatted and ready".data }

/-- The initial state built at the top of CodeTutorAgent.generate_explanation. -/
def initialState (code language : PyStr) (execution_result : ExecutionResult) :
    CodeTutorState :=
  { messages := []
    code := code
    language := language
    execution_result := execution_result
    relevant_docs := []
    explanation := []
    current_step := "Starting analysis...".data }

/-- State after the analyze_code node of the compiled linear workflow. -/
def stateAfterAnalyze (caps : Caps) (code language : PyStr) (er : ExecutionResult) :
    CodeTutorState :=
  analyze_code caps (initialState code language er)

/-- State after the retrieve_context node. -/
def stateAfterRetrieve (caps : Caps) (code language : PyStr) (er : ExecutionResult) :
    CodeTutorState :=
  retrieve_context caps (stateAfterAnalyze caps code language er)

/-- State after the generate_explanation node. -/
def stateAfterGenerate (caps : Caps) (code language : PyStr) (er : ExecutionResult) :
    CodeTutorState :=
  generate_explanation_node caps (stateAfterRetrieve caps code language er)

/-- State after the format_response node. -/
def stateAfterFormat (caps : Caps) (code language : PyStr) (er : ExecutionResult) :
    CodeTutorState :=
  format_response (stateAfterGenerate caps code language er)

/-- The slice start offsets of `range(0, len, 50)` in the streaming loop. -/
def chunkStarts (len : Nat) : List Nat :=
  List.range' 0 ((len + 49) / 50) 50

/-- The 50-character slices `explanation[i:i+50]` the streaming loop yields. -/
def pyChunks (s : PyStr) : List PyStr :=
  (chunkStarts s.length).map fun i => (s.drop i).take 50

/-- One unit of the output stream, tagged by the `yield` site that produced
it: the progress `yield` (with its node name and step label) or the
explanation-slice `yield`. -/
inductive Chunk where
  | progress (nodeName text : PyStr)
  | explanationSlice (text : PyStr)
deriving DecidableEq

/-- The exact text a chunk's `yield` emits: progress chunks render as
`"**{node_name}**: {current_step}\n\n"`, explanation slices are emitted
verbatim. -/
def renderChunk : Chunk → PyStr
  | .progress nodeName text => "**".data ++ nodeName ++ "**: ".data ++ text ++ "\n\n".data
  | .explanationSlice text => text

/-- Whether a chunk came from the progress `yield`. -/
def Chunk.isProgress : Chunk → Bool
  | .progress _ _ => true
  | .explanationSlice _ => false

/-- Node name and step label of a progress chunk. -/
def progressPart : Chunk → Option (PyStr × PyStr)
  | .progress n t => some (n, t)
  | .explanationSlice _ => none

/-- Text of an explanation-slice chunk. -/
def explanationPart : Chunk → Option PyStr
  | .progress _ _ => none
  | .explanationSlice t => some t

/-- CodeTutorAgent.generate_explanation: runs the four-node linear workflow
over a fresh state and emits, per node event in order, the progress chunk,
and — right after the generate_explanation node's progress chunk — the
50-character slices of the final explanation. -/
def generate_explanation (caps : Caps) (code language : PyStr)
    (er : ExecutionResult) : List Chunk :=
  [Chunk.progress "analyze_code".data (stateAfterAnalyze caps code language er).current_step,
   Chunk.progress "retrieve_context".data (stateAfterRetrieve caps code language er).current_step,
   Chunk.progress "generate_explanation".data (stateAfterGenerate caps code language er).current_step]
  ++ (pyChunks (stateAfterGenerate caps code language er).explanation).map Chunk.explanationSlice
  ++ [Chunk.progress "format_response".data (stateAfterFormat caps code language er).current_step]

/-- The whole byte stream of one invocation: every yielded chunk's text,
concatenated in emission order. -/
def concatStream (caps : Caps) (code language : PyStr) (er : ExecutionResult) : PyStr :=
  ((generate_explanation caps code language er).map renderChunk).flatten

/-- CodeTutorAgent.get_quick_help: one LLM call; returns the response content,
or on exception the wrapped error text instead of propagating. -/
def get_quick_help (caps : Caps) (code language : PyStr) : PyStr :=
  match caps.llm (.quickHelp language code) with
  | .ok response => response.content
  | .error e => "Error getting help: ".data ++ e

/-! Helper lemmas about the 50-character chunking. -/

/-- Generalised reconstruction: slicing from offsets `a, a+50, …` for `k`
slices rebuilds the suffix from `a`, provided `k` slices reach the end. -/
theorem join_slices (k : Nat) :
    ∀ (a : Nat) (s : PyStr), s.length ≤ a + 50 * k →
      ((List.range' a k 50).map fun i => (s.drop i).take 50).flatten = s.drop a := by
  induction k with
  | zero =>
      intro a s h
      simp only [List.range'_zero, List.map_nil, List.flatten_nil]
      exact (List.drop_eq_nil_of_le (by omega)).symm
  | succ k ih =>
      intro a s h
      rw [List.range'_succ]
      simp only [List.map_cons, List.flatten_cons]
      rw [ih (a + 50) s (by omega)]
      have hdd : s.drop (a + 50) = (s.drop a).drop 50 := by
        rw [List.drop_drop]
      rw [hdd]
      exact List.take_append_drop 50 (s.drop a)

/-- Concatenating all 50-character slices rebuilds the original string, for
every length (0 and non-multiples of 50 included). -/
theorem pyChunks_join (s : PyStr) : (pyChunks s).flatten = s := by
  have h : s.length ≤ 0 + 50 * ((s.length + 49) / 50) := by omega
  simpa [pyChunks, chunkStarts] using join_slices ((s.length + 49) / 50) 0 s h

/-- Joining two parts with a single-space separator. -/
theorem intercalate_pair (sep a b : PyStr) :
    List.intercalate sep [a, b] = a ++ sep ++ b := by
  simp [List.intercalate, List.intersperse]

/-- Joining three parts with a single-space separator. -/
theorem intercalate_triple (sep a b c : PyStr) :
    List.intercalate sep [a, b, c] = a ++ sep ++ b ++ sep ++ c := by
  simp [List.intercalate, List.intersperse]

/-! Concrete fixtures used by witnesses and counterexamples. -/

/-- Capabilities whose calls all succeed with fixed deterministic payloads. -/
def okCaps : Caps where
  llm := fun _ => .ok { content := "The code prints a number.".data }
  similaritySearch := fun _ _ _ => .ok []

/-- Capabilities whose calls all raise. -/
def failingCaps : Caps where
  llm := fun _ => .error "boom".data
  similaritySearch := fun _ _ _ => .error "boom".data

/-- Capabilities where only the vector-store search raises. -/
def throwingSearchCaps : Caps where
  llm := fun _ => .ok { content := "fine".data }
  similaritySearch := fun _ _ _ => .error "boom".data

/-- A sample successful execution result. -/
def sampleER : ExecutionResult where
  status := .success
  stdout := "1\n".data
  stderr := []
  executionTime := "0.1".data
  exitCode := some 0
  errorMessage := none

/-- A sample failing execution result carrying stderr text. -/
def sampleERerr : ExecutionResult where
  status := .error
  stdout := []
  stderr := "NameError: x".data
  executionTime := "0.1".data
  exitCode := some 1
  errorMessage := none

/-- A state whose code has exactly 250 characters, empty stderr. -/
def sampleState250 : CodeTutorState where
  messages := []
  code := List.replicate 250 'a'
  language := "python".data
  execution_result := sampleER
  relevant_docs := []
  explanation := []
  current_step := []

/-- A state whose code has exactly 250 characters, stderr `NameError: x`. -/
def sampleState250err : CodeTutorState where
  messages := []
  code := List.replicate 250 'a'
  language := "python".data
  execution_result := sampleERerr
  relevant_docs := []
  explanation := []
  current_step := []

/-! Frame lemmas about the individual stages, shared by several claims. -/

/-- analyze_code leaves every field except `current_step` and `messages`
untouched, on both the success and the failure path. -/
theorem analyze_frame (caps : Caps) (s : CodeTutorState) :
    (analyze_code caps s).code = s.code
    ∧ (analyze_code caps s).language = s.language
    ∧ (analyze_code caps s).execution_result = s.execution_result
    ∧ (analyze_code caps s).relevant_docs = s.relevant_docs
    ∧ (analyze_code caps s).explanation = s.explanation := by
  cases hc : caps.llm (analysisPromptOf s) <;> simp [analyze_code, hc]

/-- retrieve_context leaves every field except `current_step` and
`relevant_docs` untouched. -/
theorem retrieve_frame (caps : Caps) (s : CodeTutorState) :
    (retrieve_context caps s).code = s.code
    ∧ (retrieve_context caps s).language = s.language
    ∧ (retrieve_context caps s).execution_result = s.execution_result
    ∧ (retrieve_context caps s).messages = s.messages
    ∧ (retrieve_context caps s).explanation = s.explanation := by
  simp [retrieve_context]

/-- generate_explanation_node leaves every field except `current_step` and
`explanation` untouched, on both paths. -/
theorem generate_frame (caps : Caps) (s : CodeTutorState) :
    (generate_explanation_node caps s).code = s.code
    ∧ (generate_explanation_node caps s).language = s.language
    ∧ (generate_explanation_node caps s).execution_result = s.execution_result
    ∧ (generate_explanation_node caps s).messages = s.messages
    ∧ (generate_explanation_node caps s).relevant_docs = s.relevant_docs := by
  cases hc : caps.llm (explanationPromptOf s) <;> simp [generate_explanation_node, hc]

/-- format_response only rewrites `current_step`. -/
theorem format_frame (s : CodeTutorState) :
    (format_response s).code = s.code
    ∧ (format_response s).language = s.language
    ∧ (format_response s).execution_result = s.execution_result
    ∧ (format_response s).messages = s.messages
    ∧ (format_response s).relevant_docs = s.relevant_docs
    ∧ (format_response s).explanation = s.explanation := by
  simp [format_response]

/-! Claim theorems. -/

/-- C1: for every input and every combination of stage successes and failures
(ranging over all capabilities), the stream contains exactly four progress
chunks, named `analyze_code, retrieve_context, generate_explanation,
format_response` in that order, carrying the respective stage's step label,
and every progress chunk renders as `"**{stageName}**: {currentStepLabel}\n\n"`. -/
theorem progress_chunk_sequence (caps : Caps) (code language : PyStr)
    (er : ExecutionResult) :
    (generate_explanation caps code language er).filter Chunk.isProgress =
      [Chunk.progress "analyze_code".data
         (stateAfterAnalyze caps code language er).current_step,
       Chunk.progress "retrieve_context".data
         (stateAfterRetrieve caps code language er).current_step,
       Chunk.progress "generate_explanation".data
         (stateAfterGenerate caps code language er).current_step,
       Chunk.progress "format_response".data
         (stateAfterFormat caps code language er).current_step]
    ∧ ∀ n t, renderChunk (Chunk.progress n t) =
        "**".data ++ n ++ "**: ".data ++ t ++ "\n\n".data := by
  constructor
  · simp [generate_explanation, List.filter_append, List.filter_map,
      Chunk.isProgress, Function.comp]
  · intro n t
    rfl

/-- C2: the explanation-kind chunks of the stream are exactly the consecutive
50-character slices, in original order, of the explanation computed by the
generation stage; concatenating them in emission order rebuilds that
explanation exactly (any length, 0 and non-multiples of 50 included); and they
sit between the generation stage's progress chunk and the format stage's
progress chunk, so they are emitted only after the generation stage completes. -/
theorem explanation_chunks_reconstruct (caps : Caps) (code language : PyStr)
    (er : ExecutionResult) :
    (generate_explanation caps code language er).filterMap explanationPart =
        pyChunks (stateAfterGenerate caps code language er).explanation
    ∧ ((generate_explanation caps code language er).filterMap explanationPart).flatten =
        (stateAfterGenerate caps code language er).explanation
    ∧ generate_explanation caps code language er =
        [Chunk.progress "analyze_code".data
           (stateAfterAnalyze caps code language er).current_step,
         Chunk.progress "retrieve_context".data
           (stateAfterRetrieve caps code language er).current_step,
         Chunk.progress "generate_explanation".data
           (stateAfterGenerate caps code language er).current_step]
        ++ (pyChunks (stateAfterGenerate caps code language er).explanation).map
             Chunk.explanationSlice
        ++ [Chunk.progress "format_response".data
              (stateAfterFormat caps code language er).current_step] := by
  have hfm : (generate_explanation caps code language er).filterMap explanationPart =
      pyChunks (stateAfterGenerate caps code language er).explanation := by
    have hcomp : explanationPart ∘ Chunk.explanationSlice = some := funext fun _ => rfl
    simp [generate_explanation, List.filterMap_append, List.filterMap_map,
      explanationPart, hcomp, List.filterMap_some]
  exact ⟨hfm, by rw [hfm]; exact pyChunks_join _, rfl⟩

/-- C3 counterexample: with a retrieval capability that raises `boom`, the
retrieve_context stage does NOT set the step label to
`"Error retrieving context: boom"`; RAGService swallows the exception and the
stage takes its success path with zero documents. -/
theorem retrieve_error_label_refuted :
    (stateAfterRetrieve throwingSearchCaps "x = 1".data "python".data sampleER).relevant_docs = []
    ∧ (stateAfterRetrieve throwingSearchCaps "x = 1".data "python".data sampleER).current_step
        = "Retrieved 0 relevant documents".data
    ∧ ¬ ((stateAfterRetrieve throwingSearchCaps "x = 1".data "python".data sampleER).current_step
        = "Error retrieving context: boom".data) := by
  refine ⟨rfl, rfl, ?_⟩
  decide

/-- C3 (amended): if the retrieval capability throws, the retrieval wrapper
swallows the error and returns no documents, so the stage sets
`relevant_docs = []` and `current_step = "Retrieved 0 relevant documents"`
(not the unreachable `"Error retrieving context: ..."` label), and the
pipeline still executes generate_explanation and format_response: all four
progress chunks are emitted in order. -/
theorem retrieve_failure_swallowed (caps : Caps) (code language : PyStr)
    (er : ExecutionResult) (m : PyStr)
    (h : ∀ q k f, caps.similaritySearch q k f = .error m) :
    (stateAfterRetrieve caps code language er).relevant_docs = []
    ∧ (stateAfterRetrieve caps code language er).current_step
        = "Retrieved 0 relevant documents".data
    ∧ (generate_explanation caps code language er).filter Chunk.isProgress =
      [Chunk.progress "analyze_code".data
         (stateAfterAnalyze caps code language er).current_step,
       Chunk.progress "retrieve_context".data "Retrieved 0 relevant documents".data,
       Chunk.progress "generate_explanation".data
         (stateAfterGenerate caps code language er).current_step,
       Chunk.progress "format_response".data "Response formatted and ready".data] := by
  have hdocs : (stateAfterRetrieve caps code language er).relevant_docs = [] := by
    simp [stateAfterRetrieve, retrieve_context, get_relevant_context,
      search_similar_documents, h]
  have hstep : (stateAfterRetrieve caps code language er).current_step
      = "Retrieved 0 relevant documents".data := by
    have hn : (Nat.repr 0).data = ['0'] := by decide
    simp [stateAfterRetrieve, retrieve_context, get_relevant_context,
      search_similar_documents, h, natStr, hn]
  have hfmt : (stateAfterFormat caps code language er).current_step
      = "Response formatted and ready".data := rfl
  refine ⟨hdocs, hstep, ?_⟩
  simp [generate_explanation, List.filter_append, List.filter_map,
    Chunk.isProgress, Function.comp, hstep, hfmt]

/-- C3 witness: the amended behaviour at a concrete throwing search capability. -/
theorem retrieve_failure_swallowed_witness :
    (stateAfterRetrieve throwingSearchCaps "x = 1".data "python".data sampleER).relevant_docs = []
    ∧ (stateAfterRetrieve throwingSearchCaps "x = 1".data "python".data sampleER).current_step
        = "Retrieved 0 relevant documents".data
    ∧ (generate_explanation throwingSearchCaps "x = 1".data "python".data sampleER).filter
        Chunk.isProgress =
      [Chunk.progress "analyze_code".data
         (stateAfterAnalyze throwingSearchCaps "x = 1".data "python".data sampleER).current_step,
       Chunk.progress "retrieve_context".data "Retrieved 0 relevant documents".data,
       Chunk.progress "generate_explanation".data
         (stateAfterGenerate throwingSearchCaps "x = 1".data "python".data sampleER).current_step,
       Chunk.progress "format_response".data "Response formatted and ready".data] :=
  retrieve_failure_swallowed throwingSearchCaps "x = 1".data "python".data sampleER
    "boom".data (fun _ _ _ => rfl)

/-- C4: if the LLM fails on the explanation prompt with message `m`, the
generation stage stores `"Error generating explanation: {m}"` in the
`explanation` field and `"Error: {m}"` in the step label, and the engine still
chunks and streams that error text as ordinary 50-character explanation
slices whose concatenation is exactly the error text. -/
theorem generation_failure_streams_error (caps : Caps) (code language : PyStr)
    (er : ExecutionResult) (m : PyStr)
    (h : ∀ lg cd st so se t ctx,
      caps.llm (.explanationPrompt lg cd st so se t ctx) = .error m) :
    (stateAfterGenerate caps code language er).explanation
        = "Error generating explanation: ".data ++ m
    ∧ (stateAfterGenerate caps code language er).current_step = "Error: ".data ++ m
    ∧ (generate_explanation caps code language er).filterMap explanationPart =
        pyChunks ("Error generating explanation: ".data ++ m)
    ∧ ((generate_explanation caps code language er).filterMap explanationPart).flatten =
        "Error generating explanation: ".data ++ m := by
  have hexp : (stateAfterGenerate caps code language er).explanation
      = "Error generating explanation: ".data ++ m := by
    simp [stateAfterGenerate, generate_explanation_node, explanationPromptOf, h]
  have hstep : (stateAfterGenerate caps code language er).current_step
      = "Error: ".data ++ m := by
    simp [stateAfterGenerate, generate_explanation_node, explanationPromptOf, h]
  have hcomp : explanationPart ∘ Chunk.explanationSlice = some := funext fun _ => rfl
  have hfm : (generate_explanation caps code language er).filterMap explanationPart =
      pyChunks (stateAfterGenerate caps code language er).explanation := by
    simp [generate_explanation, List.filterMap_append, List.filterMap_map,
      explanationPart, hcomp, List.filterMap_some]
  refine ⟨hexp, hstep, ?_, ?_⟩
  · rw [hfm, hexp]
  · rw [hfm, pyChunks_join, hexp]

/-- C4 witness: concrete all-failing capabilities with message `boom`. -/
theorem generation_failure_streams_error_witness :
    (stateAfterGenerate failingCaps "x = 1".data "python".data sampleER).explanation
        = "Error generating explanation: ".data ++ "boom".data
    ∧ (stateAfterGenerate failingCaps "x = 1".data "python".data sampleER).current_step
        = "Error: ".data ++ "boom".data
    ∧ (generate_explanation failingCaps "x = 1".data "python".data sampleER).filterMap
        explanationPart =
        pyChunks ("Error generating explanation: ".data ++ "boom".data)
    ∧ ((generate_explanation failingCaps "x = 1".data "python".data sampleER).filterMap
        explanationPart).flatten =
        "Error generating explanation: ".data ++ "boom".data :=
  generation_failure_streams_error failingCaps "x = 1".data "python".data sampleER
    "boom".data (fun _ _ _ _ _ _ _ => rfl)

/-- Query shape when no error message is passed. -/
theorem ragQuery_none (code language : PyStr) :
    ragQuery code language none
      = language ++ " code".data ++ " ".data
        ++ (if code.length > 200 then code.take 200 else code) := by
  show List.intercalate " ".data
      [language ++ " code".data, if code.length > 200 then code.take 200 else code] = _
  rw [intercalate_pair]

/-- Query shape when a non-empty error message is passed. -/
theorem ragQuery_some (code language em : PyStr) (hem : ¬ em = []) :
    ragQuery code language (some em)
      = language ++ " code".data ++ " ".data ++ ("error: ".data ++ em) ++ " ".data
        ++ (if code.length > 200 then code.take 200 else code) := by
  show List.intercalate " ".data
      ((if em = [] then [language ++ " code".data]
        else [language ++ " code".data] ++ ["error: ".data ++ em])
       ++ [if code.length > 200 then code.take 200 else code]) = _
  rw [if_neg hem]
  show List.intercalate " ".data
      [language ++ " code".data, "error: ".data ++ em,
       if code.length > 200 then code.take 200 else code] = _
  rw [intercalate_triple]

/-- C5: for language `python`, code of length 250 and empty stderr, the query
handed to the retrieval capability by the retrieve_context stage is exactly
`"python code " ++ code[:200]` — with no `error:` part, since the stage
passes no error message when stderr is empty. -/
theorem query_without_error_segment (caps : Caps) (s : CodeTutorState)
    (h1 : s.language = "python".data) (h2 : s.code.length = 250)
    (h3 : s.execution_result.stderr = []) :
    ragQuery s.code s.language (stderrArg s.execution_result)
        = "python code ".data ++ s.code.take 200
    ∧ (retrieve_context caps s).relevant_docs =
        search_similar_documents caps ("python code ".data ++ s.code.take 200) 3 none := by
  have hq : ragQuery s.code s.language (stderrArg s.execution_result)
      = "python code ".data ++ s.code.take 200 := by
    have harg : stderrArg s.execution_result = none := by simp [stderrArg, h3]
    have hlit : "python".data ++ " code".data ++ " ".data = "python code ".data := by
      decide
    rw [harg, ragQuery_none, h1, h2, if_pos (show 250 > 200 by norm_num), hlit]
  refine ⟨hq, ?_⟩
  show search_similar_documents caps
      (ragQuery s.code s.language (stderrArg s.execution_result)) 3 none = _
  rw [hq]

/-- C5 witness: a concrete state with 250 `a` characters and empty stderr. -/
theorem query_without_error_segment_witness :
    ragQuery sampleState250.code sampleState250.language
        (stderrArg sampleState250.execution_result)
      = "python code ".data ++ sampleState250.code.take 200
    ∧ (retrieve_context okCaps sampleState250).relevant_docs =
        search_similar_documents okCaps
          ("python code ".data ++ sampleState250.code.take 200) 3 none :=
  query_without_error_segment okCaps sampleState250 rfl
    (List.length_replicate 250 'a') rfl

/-- C6: same setting but stderr `NameError: x`: the query contains
`"error: NameError: x"` as the middle segment, between the leading
`"python code"` and the trailing 200-character code snippet. -/
theorem query_with_error_segment (caps : Caps) (s : CodeTutorState)
    (h1 : s.language = "python".data) (h2 : s.code.length = 250)
    (h3 : s.execution_result.stderr = "NameError: x".data) :
    ragQuery s.code s.language (stderrArg s.execution_result)
        = "python code ".data ++ "error: NameError: x ".data ++ s.code.take 200
    ∧ (retrieve_context caps s).relevant_docs =
        search_similar_documents caps
          ("python code ".data ++ "error: NameError: x ".data ++ s.code.take 200) 3 none := by
  have hq : ragQuery s.code s.language (stderrArg s.execution_result)
      = "python code ".data ++ "error: NameError: x ".data ++ s.code.take 200 := by
    have hem : ¬ ("NameError: x".data = ([] : PyStr)) := by decide
    have harg : stderrArg s.execution_result = some ("NameError: x".data) := by
      simp [stderrArg, h3]
    have hlit : "python".data ++ " code".data ++ " ".data
        ++ ("error: ".data ++ "NameError: x".data) ++ " ".data
        = "python code ".data ++ "error: NameError: x ".data := by
      decide
    rw [harg, ragQuery_some _ _ _ hem, h1, h2,
      if_pos (show 250 > 200 by norm_num), hlit]
  refine ⟨hq, ?_⟩
  show search_similar_documents caps
      (ragQuery s.code s.language (stderrArg s.execution_result)) 3 none = _
  rw [hq]

/-- C6 witness: a concrete state with 250 `a` characters and stderr
`NameError: x`. -/
theorem query_with_error_segment_witness :
    ragQuery sampleState250err.code sampleState250err.language
        (stderrArg sampleState250err.execution_result)
      = "python code ".data ++ "error: NameError: x ".data
          ++ sampleState250err.code.take 200
    ∧ (retrieve_context okCaps sampleState250err).relevant_docs =
        search_similar_documents okCaps
          ("python code ".data ++ "error: NameError: x ".data
            ++ sampleState250err.code.take 200) 3 none :=
  query_with_error_segment okCaps sampleState250err rfl
    (List.length_replicate 250 'a') rfl

/-- C7: write discipline of the four stages, for every state and every
capability outcome: fields already written by their designated stage are
never overwritten by a later stage (messages by analyze_code,
relevant_docs by retrieve_context, explanation by generate_explanation);
code, language and execution_result are written by no stage at all; and every
stage sets current_step to one of its own two labels, on the success path and
on the failure path alike. -/
theorem state_field_write_discipline (caps : Caps) (s : CodeTutorState) :
    ((retrieve_context caps s).messages = s.messages
      ∧ (generate_explanation_node caps s).messages = s.messages
      ∧ (format_response s).messages = s.messages)
    ∧ ((generate_explanation_node caps s).relevant_docs = s.relevant_docs
      ∧ (format_response s).relevant_docs = s.relevant_docs)
    ∧ (format_response s).explanation = s.explanation
    ∧ ((analyze_code caps s).code = s.code
      ∧ (analyze_code caps s).language = s.language
      ∧ (analyze_code caps s).execution_result = s.execution_result)
    ∧ ((retrieve_context caps s).code = s.code
      ∧ (retrieve_context caps s).language = s.language
      ∧ (retrieve_context caps s).execution_result = s.execution_result)
    ∧ ((generate_explanation_node caps s).code = s.code
      ∧ (generate_explanation_node caps s).language = s.language
      ∧ (generate_explanation_node caps s).execution_result = s.execution_result)
    ∧ ((format_response s).code = s.code
      ∧ (format_response s).language = s.language
      ∧ (format_response s).execution_result = s.execution_result)
    ∧ ((analyze_code caps s).relevant_docs = s.relevant_docs
      ∧ (analyze_code caps s).explanation = s.explanation
      ∧ (retrieve_context caps s).explanation = s.explanation)
    ∧ ((analyze_code caps s).current_step = "Code analysis completed".data
        ∨ ∃ m, (analyze_code caps s).current_step = "Error in analysis: ".data ++ m)
    ∧ (∃ n, (retrieve_context caps s).current_step
        = "Retrieved ".data ++ natStr n ++ " relevant documents".data)
    ∧ ((generate_explanation_node caps s).current_step = "Explanation generated".data
        ∨ ∃ m, (generate_explanation_node caps s).current_step = "Error: ".data ++ m)
    ∧ (format_response s).current_step = "Response formatted and ready".data := by
  obtain ⟨a1, a2, a3, a4, a5⟩ := analyze_frame caps s
  obtain ⟨r1, r2, r3, r4, r5⟩ := retrieve_frame caps s
  obtain ⟨g1, g2, g3, g4, g5⟩ := generate_frame caps s
  obtain ⟨f1, f2, f3, f4, f5, f6⟩ := format_frame s
  refine ⟨⟨r4, g4, f4⟩, ⟨g5, f5⟩, f6, ⟨a1, a2, a3⟩, ⟨r1, r2, r3⟩, ⟨g1, g2, g3⟩,
    ⟨f1, f2, f3⟩, ⟨a4, a5, r5⟩, ?_, ?_, ?_, rfl⟩
  · cases hc : caps.llm (analysisPromptOf s) with
    | error e => exact Or.inr ⟨e, by simp [analyze_code, hc]⟩
    | ok r => exact Or.inl (by simp [analyze_code, hc])
  · exact ⟨(get_relevant_context caps s.code s.language
      (stderrArg s.execution_result) 3).length, rfl⟩
  · cases hc : caps.llm (explanationPromptOf s) with
    | error e => exact Or.inr ⟨e, by simp [generate_explanation_node, hc]⟩
    | ok r => exact Or.inl (by simp [generate_explanation_node, hc])

/-- C8: when the LLM fails on the analysis prompt with message `m`, the
analyze_code stage sets the step label to `"Error in analysis: {m}"` and
leaves `messages` unchanged; and for every capability outcome (success or
failure alike) the stage leaves `relevant_docs` and `explanation` unchanged. -/
theorem analysis_failure_frame (caps caps2 : Caps) (s : CodeTutorState) (m : PyStr)
    (h : ∀ lg cd st so se t, caps.llm (.analysis lg cd st so se t) = .error m) :
    (analyze_code caps s).current_step = "Error in analysis: ".data ++ m
    ∧ (analyze_code caps s).messages = s.messages
    ∧ (analyze_code caps2 s).relevant_docs = s.relevant_docs
    ∧ (analyze_code caps2 s).explanation = s.explanation := by
  have hfail := h s.language s.code s.execution_result.status.toStr
    s.execution_result.stdout s.execution_result.stderr s.execution_result.executionTime
  obtain ⟨_, _, _, d4, d5⟩ := analyze_frame caps2 s
  refine ⟨?_, ?_, d4, d5⟩ <;> simp [analyze_code, analysisPromptOf, hfail]

/-- C8 witness: a concrete always-failing LLM next to a succeeding one. -/
theorem analysis_failure_frame_witness :
    (analyze_code failingCaps sampleState250).current_step
        = "Error in analysis: ".data ++ "boom".data
    ∧ (analyze_code failingCaps sampleState250).messages = sampleState250.messages
    ∧ (analyze_code okCaps sampleState250).relevant_docs = sampleState250.relevant_docs
    ∧ (analyze_code okCaps sampleState250).explanation = sampleState250.explanation :=
  analysis_failure_frame failingCaps okCaps sampleState250 "boom".data
    (fun _ _ _ _ _ _ => rfl)

/-- C9: the engine adds no nondeterminism of its own: with equal inputs and
equal (pure-function) capabilities, two invocations of the pipeline produce
byte-identical concatenated output streams. -/
theorem stream_deterministic (caps1 caps2 : Caps)
    (code1 code2 language1 language2 : PyStr) (er1 er2 : ExecutionResult)
    (hc : caps1 = caps2) (h1 : code1 = code2) (h2 : language1 = language2)
    (h3 : er1 = er2) :
    concatStream caps1 code1 language1 er1 = concatStream caps2 code2 language2 er2 := by
  rw [hc, h1, h2, h3]

/-- C9 witness: two concrete identical invocations. -/
theorem stream_deterministic_witness :
    concatStream okCaps "x = 1".data "python".data sampleER
      = concatStream okCaps "x = 1".data "python".data sampleER :=
  stream_deterministic okCaps okCaps "x = 1".data "x = 1".data
    "python".data "python".data sampleER sampleER rfl rfl rfl rfl

/-- C10: the quick-help operation is a total function (it never propagates a
capability error): on LLM success it returns the response content, on LLM
failure with message `m` it returns `"Error getting help: {m}"`. -/
theorem quick_help_total (caps : Caps) (code language : PyStr) :
    (∀ r, caps.llm (.quickHelp language code) = .ok r →
        get_quick_help caps code language = r.content)
    ∧ (∀ m, caps.llm (.quickHelp language code) = .error m →
        get_quick_help caps code language = "Error getting help: ".data ++ m) := by
  constructor <;> intro x hx <;> simp [get_quick_help, hx]

/-- C10 witness: the failing branch at a concrete always-raising LLM. -/
theorem quick_help_total_witness :
    get_quick_help failingCaps "x = 1".data "python".data
      = "Error getting help: ".data ++ "boom".data :=
  (quick_help_total failingCaps "x = 1".data "python".data).2 "boom".data rfl

end CodeTutor
